import Mathlib

/-!
Verification of the `bonsai-connector` session engine and state validator
(`src/bonsai_connector/connector.py`), via a shallow embedding of the Python
code into Lean.

Python runtime values are modelled by the inductive `PyVal`; exceptions by
`Except`; the opaque Bonsai transport client by explicit streams of platform
responses and session identifiers, with every transport call recorded in a
trace.
-/

/-- A Python runtime value, as far as the connector inspects it.
Scalars the connector never computes with (floats, third-party scalars such
as numpy wrappers or complex numbers) carry an opaque representative: the
code only ever inspects their runtime type and prints them. `other ty r` is a
value whose runtime type is named `ty` (e.g. `"numpy.float64"`, `"complex"`)
with printed form `r`. Dict keys are assumed to be strings, as in the code
(`# Assume key is always a supported type`). -/
inductive PyVal where
  | bool (b : Bool)
  | int (n : Int)
  | float (r : String)
  | str (s : String)
  | list (xs : List PyVal)
  | dict (kvs : List (String × PyVal))
  | other (ty : String) (r : String)

/-- A Python runtime type object, compared by identity (`type(x) in ...`).
`named s` is any runtime type other than the six builtins modelled here
(e.g. `numpy.float64`, `complex`): such a type is a distinct type object from
every builtin, whatever its printed name `s`. -/
inductive PyTy where
  | bool
  | int
  | float
  | str
  | list
  | dict
  | named (s : String)
deriving DecidableEq

/-- Python `type(x)`. -/
def pyType : PyVal → PyTy
  | .bool _ => .bool
  | .int _ => .int
  | .float _ => .float
  | .str _ => .str
  | .list _ => .list
  | .dict _ => .dict
  | .other ty _ => .named ty

/-- `allowed_types = (bool, dict, float, int, list)` from `validate_state`. -/
def allowed_types : List PyTy := [.bool, .dict, .float, .int, .list]

/-- `iterable_types = (dict, list)` from `validate_state`. -/
def iterable_types : List PyTy := [.dict, .list]

/-- `has_invalid_type(x)`: `type(x) not in allowed_types` (type identity,
not `isinstance`). -/
def has_invalid_type (x : PyVal) : Bool :=
  decide (pyType x ∉ allowed_types)

/-- The payload of the `TypeError` raised by `validate_state`:
`f"Element '{state}' not supported: {type(state)}"` names the offending
value and its runtime type. -/
structure ValErr where
  element : PyVal
  tyName : PyTy

mutual
/-- `validate_state(state)` from `connector.py`: raise `TypeError` when the
node's exact runtime type is not allowed; recurse into dict values and list
items; return on other (scalar) nodes. -/
def validate_state (state : PyVal) : Except ValErr Unit :=
  if has_invalid_type state then
    .error { element := state, tyName := pyType state }
  else
    match state with
    | .dict kvs => validate_vals kvs
    | .list xs => validate_items xs
    | _ => .ok ()

/-- The `for _, val in state.items(): validate_state(val)` loop. -/
def validate_vals (kvs : List (String × PyVal)) : Except ValErr Unit :=
  match kvs with
  | [] => .ok ()
  | (_, val) :: rest => do
    validate_state val
    validate_vals rest

/-- The `for item in state: validate_state(item)` loop. -/
def validate_items (xs : List PyVal) : Except ValErr Unit :=
  match xs with
  | [] => .ok ()
  | item :: rest => do
    validate_state item
    validate_items rest
end

/-- `Occurs n v`: the node `n` occurs somewhere inside the value `v`
(at the root, inside a list element, or inside a dict value, at any depth). -/
inductive Occurs : PyVal → PyVal → Prop where
  | refl (v : PyVal) : Occurs v v
  | listMem {n x : PyVal} {xs : List PyVal} (hx : x ∈ xs) (h : Occurs n x) :
      Occurs n (.list xs)
  | dictMem {n v : PyVal} {k : String} {kvs : List (String × PyVal)}
      (hk : (k, v) ∈ kvs) (h : Occurs n v) : Occurs n (.dict kvs)

/-- Modelled from the spec sentence of C1 (§8): a value "built only from
booleans, integers, floats, strings, and nested sequences/mappings of such".
This is the spec-side grammar, stated for comparison with `validate_state`;
note it admits strings. -/
inductive SpecAllowed : PyVal → Prop where
  | bool (b : Bool) : SpecAllowed (.bool b)
  | int (n : Int) : SpecAllowed (.int n)
  | float (r : String) : SpecAllowed (.float r)
  | str (s : String) : SpecAllowed (.str s)
  | list {xs : List PyVal} (h : ∀ x ∈ xs, SpecAllowed x) : SpecAllowed (.list xs)
  | dict {kvs : List (String × PyVal)} (h : ∀ p ∈ kvs, SpecAllowed p.2) :
      SpecAllowed (.dict kvs)

/-- The amended grammar: a value built only from booleans, integers, floats,
and nested lists and string-keyed dicts of such values — strings excluded,
matching `allowed_types` in the code. -/
inductive CoreAllowed : PyVal → Prop where
  | bool (b : Bool) : CoreAllowed (.bool b)
  | int (n : Int) : CoreAllowed (.int n)
  | float (r : String) : CoreAllowed (.float r)
  | list {xs : List PyVal} (h : ∀ x ∈ xs, CoreAllowed x) : CoreAllowed (.list xs)
  | dict {kvs : List (String × PyVal)} (h : ∀ p ∈ kvs, CoreAllowed p.2) :
      CoreAllowed (.dict kvs)

/-- The platform's response object to a `client.session.advance` call, as
far as `next_event` reads it: `event.type`, `event.sequence_id`, and the
kind-specific payloads `event.episode_start.config`,
`event.episode_step.action`, `event.episode_finish.reason`,
`event.unregister.details`. -/
structure AdvanceResponse where
  type : String
  sequence_id : Nat
  config : PyVal
  action : PyVal
  reason : PyVal
  unregister_details : String

/-- `BonsaiEventType` from `connector.py`. -/
inductive BonsaiEventType where
  | IDLE
  | EPISODE_START
  | EPISODE_STEP
  | EPISODE_FINISH
deriving DecidableEq

/-- The `BonsaiEvent` dataclass: a kind and kind-dependent content. -/
structure BonsaiEvent where
  event_type : BonsaiEventType
  event_content : PyVal

/-- The fields of `BonsaiConnector` used by the session protocol:
`workspace` and `sim_interface` are fixed at construction, `retry` is the
retry policy, `session_id` and `sequence_id` are the mutable session state
written by `register_sim` and `next_event`. -/
structure ConnState where
  workspace : String
  sim_interface : PyVal
  retry : Bool
  session_id : String
  sequence_id : Nat

/-- One call to the transport collaborator, with the arguments the code
passes: `session.create(workspace_name, body)`,
`session.advance(workspace_name, session_id, body)` where the
`SimulatorState` body carries `sequence_id`, `state` and `halted`, and
`session.delete(workspace_name, session_id)`. -/
inductive TransportCall where
  | create (workspace : String) (sim_interface : PyVal)
  | advance (workspace : String) (session_id : String) (sequence_id : Nat)
      (state : PyVal) (halted : PyVal)
  | delete (workspace : String) (session_id : String)

/-- A Python exception escaping `register_sim` / `next_event`. -/
inductive PyExc where
  | typeErrorValidation (e : ValErr)
  | attributeError (ty : PyTy)
  | runtimeUnregistered (details : String)
  | typeErrorUnknownEvent (received : String)
  | transportError

/-- Python `dict.get(key, dflt)` on the modelled entry list. -/
def dictGet (kvs : List (String × PyVal)) (key : String) (dflt : PyVal) : PyVal :=
  match kvs.find? (fun p => p.1 == key) with
  | some p => p.2
  | none => dflt

/-- `state.get("halted", False)`: only a dict has the `get` attribute, so on
any other top-level value Python raises `AttributeError` before the advance
request is built. -/
def getHalted : PyVal → Except PyExc PyVal
  | .dict kvs => .ok (dictGet kvs "halted" (.bool false))
  | v => .error (.attributeError (pyType v))

/-- `register_sim`: one `client.session.create` call; the platform assigns a
fresh session identifier (drawn from the stream of pending identifiers) and
`self.sequence_id` is set to 1. An exhausted stream models a failing
transport call, whose error propagates with the connector state untouched. -/
def register_sim (conn : ConnState) (sessions : List String) :
    Except PyExc Unit × ConnState × List String × List TransportCall :=
  match sessions with
  | [] => (.error .transportError, conn, [],
      [.create conn.workspace conn.sim_interface])
  | sid :: rest =>
    (.ok (), { conn with session_id := sid, sequence_id := 1 }, rest,
      [.create conn.workspace conn.sim_interface])

/-- The complete effect of one `next_event` call: its outcome (returned
event or raised exception), the connector state after the call, the
remaining platform streams, and the transport calls made, in order. -/
structure StepResult where
  outcome : Except PyExc BonsaiEvent
  conn : ConnState
  sessions : List String
  responses : List AdvanceResponse
  calls : List TransportCall

/-- `next_event(state)` from `connector.py`, line by line:
validate the snapshot; build the `SimulatorState` body (reading `halted`
from the snapshot via `.get`); send the advance call; assign
`self.sequence_id = event.sequence_id`; then dispatch on `event.type`.
On `Unregister` with retry enabled the code calls `self.register_sim()` and
then `self.next_event(state)` WITHOUT returning its result, so control falls
through to the final `raise TypeError(f"Unknown event type. ...")` with
`event.type` still `"Unregister"`; if the retried call raises, that
exception propagates instead. -/
def next_event (conn : ConnState) (sessions : List String)
    (responses : List AdvanceResponse) (state : PyVal) : StepResult :=
  match validate_state state with
  | .error e => ⟨.error (.typeErrorValidation e), conn, sessions, responses, []⟩
  | .ok _ =>
    match getHalted state with
    | .error exc => ⟨.error exc, conn, sessions, responses, []⟩
    | .ok halted =>
      match responses with
      | [] =>
        ⟨.error .transportError, conn, sessions, [],
          [.advance conn.workspace conn.session_id conn.sequence_id state halted]⟩
      | resp :: rest =>
        let call := TransportCall.advance conn.workspace conn.session_id
          conn.sequence_id state halted
        let conn1 : ConnState := { conn with sequence_id := resp.sequence_id }
        if resp.type = "Idle" then
          ⟨.ok ⟨.IDLE, .dict []⟩, conn1, sessions, rest, [call]⟩
        else if resp.type = "EpisodeStart" then
          ⟨.ok ⟨.EPISODE_START, resp.config⟩, conn1, sessions, rest, [call]⟩
        else if resp.type = "EpisodeStep" then
          ⟨.ok ⟨.EPISODE_STEP, resp.action⟩, conn1, sessions, rest, [call]⟩
        else if resp.type = "EpisodeFinish" then
          ⟨.ok ⟨.EPISODE_FINISH, resp.reason⟩, conn1, sessions, rest, [call]⟩
        else if resp.type = "Unregister" then
          if conn1.retry then
            match register_sim conn1 sessions with
            | (.error exc, conn2, sessions2, calls2) =>
              ⟨.error exc, conn2, sessions2, rest, call :: calls2⟩
            | (.ok _, conn2, sessions2, calls2) =>
              let retried := next_event conn2 sessions2 rest state
              match retried.outcome with
              | .error exc =>
                ⟨.error exc, retried.conn, retried.sessions, retried.responses,
                  call :: calls2 ++ retried.calls⟩
              | .ok _ =>
                ⟨.error (.typeErrorUnknownEvent "Unregister"), retried.conn,
                  retried.sessions, retried.responses,
                  call :: calls2 ++ retried.calls⟩
          else
            ⟨.error (.runtimeUnregistered resp.unregister_details), conn1,
              sessions, rest, [call]⟩
        else
          ⟨.error (.typeErrorUnknownEvent resp.type), conn1, sessions, rest, [call]⟩
termination_by responses.length
decreasing_by
  simp

/-- `close_session`: one `client.session.delete` call with the stored
session identifier. -/
def close_session (conn : ConnState) : List TransportCall :=
  [.delete conn.workspace conn.session_id]

/-- Outcome of `jsonschema.validate` on the registration descriptor:
success, a `ValidationError`, or any other exception (`BaseException`).
The two `except` clauses of `validate_interface` cover the last two cases
exhaustively, so the outcome fully determines the function's behaviour. -/
inductive SchemaOutcome where
  | valid
  | validationError (msg : String)
  | otherError (msg : String)

/-- A log line emitted through `log`. -/
inductive LogLine where
  | info (msg : String)
  | warning (msg : String)

/-- `validate_interface(sim_interface)`: advisory schema check. A
`ValidationError` or any other exception raised by the validation is caught
and logged as warnings; in every case the caller-supplied descriptor is
returned unchanged and nothing propagates. -/
def validate_interface (sim_interface : PyVal) (outcome : SchemaOutcome) :
    Except PyExc (PyVal × List LogLine) :=
  match outcome with
  | .valid =>
    .ok (sim_interface,
      [.info "JSON schema for sim_interface successfully validated."])
  | .validationError msg =>
    .ok (sim_interface,
      [.warning "Errors validating sim_interface JSON schema.", .warning msg])
  | .otherError msg =>
    .ok (sim_interface,
      [.warning "Something went wrong when validating sim_interface schema.",
       .warning msg])


example : validate_state (.dict [("accepted", .int 1)]) = .ok () := by
  simp [validate_state, validate_vals, validate_items, has_invalid_type, pyType, allowed_types, bind, Except.bind]
example : validate_state (.dict [("accepted", .list [.float "1.0", .float "2.0"])]) = .ok () := by
  simp [validate_state, validate_vals, validate_items, has_invalid_type, pyType, allowed_types, bind, Except.bind]
example : validate_state (.dict [("invalid", .str "string")]) =
    .error ⟨.str "string", .str⟩ := by
  simp [validate_state, validate_vals, validate_items, has_invalid_type, pyType, allowed_types, bind, Except.bind]
example : validate_state (.dict [("numpy", .other "numpy.float64" "10.0")]) =
    .error ⟨.other "numpy.float64" "10.0", .named "numpy.float64"⟩ := by
  simp [validate_state, validate_vals, validate_items, has_invalid_type, pyType, allowed_types, bind, Except.bind]
example : validate_state (.dict [("invalid_nested", .dict [("a", .dict [("b", .other "complex" "(1+3j)")])])]) =
    .error ⟨.other "complex" "(1+3j)", .named "complex"⟩ := by
  simp [validate_state, validate_vals, validate_items, has_invalid_type, pyType, allowed_types, bind, Except.bind]

/-- Structural induction over `PyVal`, recursing through list elements and
dict values. -/
theorem PyVal.inductionOn {motive : PyVal → Prop}
    (hbool : ∀ b, motive (.bool b))
    (hint : ∀ n, motive (.int n))
    (hfloat : ∀ r, motive (.float r))
    (hstr : ∀ s, motive (.str s))
    (hother : ∀ ty r, motive (.other ty r))
    (hlist : ∀ xs, (∀ x ∈ xs, motive x) → motive (.list xs))
    (hdict : ∀ kvs, (∀ p ∈ kvs, motive p.2) → motive (.dict kvs)) :
    ∀ v, motive v
  | .bool b => hbool b
  | .int n => hint n
  | .float r => hfloat r
  | .str s => hstr s
  | .other ty r => hother ty r
  | .list xs => hlist xs (fun x hx =>
      PyVal.inductionOn hbool hint hfloat hstr hother hlist hdict x)
  | .dict kvs => hdict kvs (fun p hp =>
      PyVal.inductionOn hbool hint hfloat hstr hother hlist hdict p.2)
termination_by v => sizeOf v
decreasing_by
  · have := List.sizeOf_lt_of_mem hx
    simp only [PyVal.list.sizeOf_spec]
    omega
  · have h1 := List.sizeOf_lt_of_mem hp
    obtain ⟨k, v⟩ := p
    simp only [PyVal.dict.sizeOf_spec, Prod.mk.sizeOf_spec] at h1 ⊢
    omega

theorem validate_items_ok_of_forall {xs : List PyVal}
    (h : ∀ x ∈ xs, validate_state x = .ok ()) : validate_items xs = .ok () := by
  induction xs with
  | nil => simp [validate_items]
  | cons x rest ih =>
    have hx := h x (by simp)
    simp [validate_items, bind, Except.bind, hx]
    exact ih (fun y hy => h y (by simp [hy]))

theorem validate_vals_ok_of_forall {kvs : List (String × PyVal)}
    (h : ∀ p ∈ kvs, validate_state p.2 = .ok ()) : validate_vals kvs = .ok () := by
  induction kvs with
  | nil => simp [validate_vals]
  | cons p rest ih =>
    obtain ⟨k, v⟩ := p
    have hv := h (k, v) (by simp)
    simp at hv
    simp [validate_vals, bind, Except.bind, hv]
    exact ih (fun q hq => h q (by simp [hq]))

theorem validate_items_ok_mem {xs : List PyVal} {x : PyVal}
    (h : validate_items xs = .ok ()) (hx : x ∈ xs) : validate_state x = .ok () := by
  induction xs with
  | nil => simp at hx
  | cons y rest ih =>
    simp [validate_items, bind, Except.bind] at h
    cases hy : validate_state y with
    | error e => simp [hy] at h
    | ok u =>
      rcases List.mem_cons.mp hx with rfl | hmem
      · cases u; exact hy
      · exact ih (by simpa [hy] using h) hmem

theorem validate_vals_ok_mem {kvs : List (String × PyVal)} {k : String} {v : PyVal}
    (h : validate_vals kvs = .ok ()) (hkv : (k, v) ∈ kvs) : validate_state v = .ok () := by
  induction kvs with
  | nil => simp at hkv
  | cons p rest ih =>
    obtain ⟨k1, v1⟩ := p
    simp [validate_vals, bind, Except.bind] at h
    cases hv : validate_state v1 with
    | error e => simp [hv] at h
    | ok u =>
      rcases List.mem_cons.mp hkv with heq | hmem
      · cases u
        obtain ⟨rfl, rfl⟩ := Prod.mk.injEq .. ▸ heq
        exact hv
      · exact ih (by simpa [hv] using h) hmem

theorem validate_items_error {xs : List PyVal} {e : ValErr}
    (h : validate_items xs = .error e) : ∃ x ∈ xs, validate_state x = .error e := by
  induction xs with
  | nil => simp [validate_items] at h
  | cons y rest ih =>
    simp [validate_items, bind, Except.bind] at h
    cases hy : validate_state y with
    | error e1 =>
      simp [hy] at h
      exact ⟨y, by simp, by simp [hy, h]⟩
    | ok u =>
      cases u
      obtain ⟨x, hx, hxe⟩ := ih (by simpa [hy] using h)
      exact ⟨x, by simp [hx], hxe⟩

theorem validate_vals_error {kvs : List (String × PyVal)} {e : ValErr}
    (h : validate_vals kvs = .error e) :
    ∃ k v, (k, v) ∈ kvs ∧ validate_state v = .error e := by
  induction kvs with
  | nil => simp [validate_vals] at h
  | cons p rest ih =>
    obtain ⟨k1, v1⟩ := p
    simp [validate_vals, bind, Except.bind] at h
    cases hv : validate_state v1 with
    | error e1 =>
      simp [hv] at h
      exact ⟨k1, v1, by simp, by simp [hv, h]⟩
    | ok u =>
      cases u
      obtain ⟨k, v, hkv, hve⟩ := ih (by simpa [hv] using h)
      exact ⟨k, v, by simp [hkv], hve⟩

theorem validate_state_ok_of_coreAllowed {v : PyVal} (h : CoreAllowed v) :
    validate_state v = .ok () := by
  induction h with
  | bool b => simp [validate_state, has_invalid_type, pyType, allowed_types]
  | int n => simp [validate_state, has_invalid_type, pyType, allowed_types]
  | float r => simp [validate_state, has_invalid_type, pyType, allowed_types]
  | list h ih =>
    simp [validate_state, has_invalid_type, pyType, allowed_types]
    exact validate_items_ok_of_forall ih
  | dict h ih =>
    simp [validate_state, has_invalid_type, pyType, allowed_types]
    exact validate_vals_ok_of_forall ih

theorem validate_state_ok_occurs {v n : PyVal} (ho : Occurs n v) :
    validate_state v = .ok () → has_invalid_type n = false := by
  induction ho with
  | refl =>
    intro h
    by_cases hbad : has_invalid_type n
    · rw [validate_state.eq_def] at h
      simp [hbad] at h
    · simpa using hbad
  | listMem hx hocc ih =>
    intro h
    apply ih
    simp [validate_state, has_invalid_type, pyType, allowed_types] at h
    exact validate_items_ok_mem h hx
  | dictMem hk hocc ih =>
    intro h
    apply ih
    simp [validate_state, has_invalid_type, pyType, allowed_types] at h
    exact validate_vals_ok_mem h hk

theorem validate_state_error_shape {e : ValErr} :
    ∀ v : PyVal, validate_state v = .error e →
      has_invalid_type e.element = true ∧ e.tyName = pyType e.element ∧
        Occurs e.element v := by
  intro v
  induction v using PyVal.inductionOn with
  | hbool b => simp [validate_state, has_invalid_type, pyType, allowed_types]
  | hint n => simp [validate_state, has_invalid_type, pyType, allowed_types]
  | hfloat r => simp [validate_state, has_invalid_type, pyType, allowed_types]
  | hstr s =>
    intro h
    simp [validate_state, has_invalid_type, pyType, allowed_types] at h
    subst h
    exact ⟨by simp [has_invalid_type, pyType, allowed_types], rfl, Occurs.refl _⟩
  | hother ty r =>
    intro h
    by_cases hbad : has_invalid_type (PyVal.other ty r)
    · simp [validate_state, hbad] at h
      subst h
      exact ⟨hbad, rfl, Occurs.refl _⟩
    · simp [has_invalid_type, pyType, allowed_types] at hbad
  | hlist xs ih =>
    intro h
    simp [validate_state, has_invalid_type, pyType, allowed_types] at h
    obtain ⟨x, hx, hxe⟩ := validate_items_error h
    obtain ⟨h1, h2, h3⟩ := ih x hx hxe
    exact ⟨h1, h2, Occurs.listMem hx h3⟩
  | hdict kvs ih =>
    intro h
    simp [validate_state, has_invalid_type, pyType, allowed_types] at h
    obtain ⟨k, v, hkv, hve⟩ := validate_vals_error h
    obtain ⟨h1, h2, h3⟩ := ih (k, v) hkv hve
    exact ⟨h1, h2, Occurs.dictMem hkv h3⟩

/-- C1 (counterexample): the claim admits strings, but `validate_state`
rejects the test suite's own example `{"invalid": "string"}` — a value built
only from the claim's allowed constructors — because `str` is missing from
`allowed_types` in the code. -/
theorem C1_spec_grammar_value_rejected :
    SpecAllowed (.dict [("invalid", .str "string")]) ∧
      validate_state (.dict [("invalid", .str "string")]) ≠ .ok () := by
  constructor
  · refine SpecAllowed.dict ?_
    intro p hp
    simp at hp
    subst hp
    exact SpecAllowed.str _
  · intro h
    have := validate_state_ok_occurs
      (Occurs.dictMem (k := "invalid") (by simp) (Occurs.refl (.str "string"))) h
    simp [has_invalid_type, pyType, allowed_types] at this

/-- C1 (amended): for every value built only from booleans, integers, floats,
and nested lists and string-keyed dicts of such values — strings excluded —
`validate_state` succeeds, at any nesting depth. -/
theorem C1_core_grammar_validates (v : PyVal) (h : CoreAllowed v) :
    validate_state v = .ok () :=
  validate_state_ok_of_coreAllowed h

/-- Witness for C1 at a concrete nested value. -/
theorem C1_core_grammar_validates_witness :
    CoreAllowed (.dict [("a", .int 1), ("b", .list [.bool true, .float "1.0"])]) ∧
      validate_state (.dict [("a", .int 1), ("b", .list [.bool true, .float "1.0"])]) =
        .ok () := by
  have hca : CoreAllowed (.dict [("a", .int 1), ("b", .list [.bool true, .float "1.0"])]) := by
    refine CoreAllowed.dict ?_
    intro p hp
    simp at hp
    rcases hp with h | h
    · subst h; exact CoreAllowed.int 1
    · subst h
      refine CoreAllowed.list ?_
      intro x hx
      simp at hx
      rcases hx with h | h
      · subst h; exact CoreAllowed.bool true
      · subst h; exact CoreAllowed.float "1.0"
  exact ⟨hca, C1_core_grammar_validates _ hca⟩

/-- C4: any value containing, at any nesting depth, a node whose exact
runtime type is outside `allowed_types` (e.g. a numpy scalar or a complex
number) makes `validate_state` fail, and the error names an offending value
occurring in the input together with that value's runtime type. -/
theorem C4_invalid_scalar_rejected (v n : PyVal) (ho : Occurs n v)
    (hbad : has_invalid_type n = true) :
    ∃ e, validate_state v = .error e ∧ has_invalid_type e.element = true ∧
      e.tyName = pyType e.element ∧ Occurs e.element v := by
  cases h : validate_state v with
  | ok u =>
    cases u
    have := validate_state_ok_occurs ho h
    simp [this] at hbad
  | error e =>
    obtain ⟨h1, h2, h3⟩ := validate_state_error_shape v h
    exact ⟨e, rfl, h1, h2, h3⟩

/-- Witness for C4: a numpy scalar nested inside a dict inside a list. -/
theorem C4_invalid_scalar_rejected_witness :
    Occurs (.other "numpy.float64" "10.0")
        (.list [.dict [("numpy", .other "numpy.float64" "10.0")]]) ∧
      has_invalid_type (.other "numpy.float64" "10.0") = true ∧
      ∃ e, validate_state (.list [.dict [("numpy", .other "numpy.float64" "10.0")]]) =
          .error e ∧ has_invalid_type e.element = true ∧
        e.tyName = pyType e.element ∧
        Occurs e.element (.list [.dict [("numpy", .other "numpy.float64" "10.0")]]) := by
  have h2 : Occurs (.other "numpy.float64" "10.0")
      (.dict [("numpy", .other "numpy.float64" "10.0")]) :=
    Occurs.dictMem (k := "numpy") (by simp) (Occurs.refl _)
  have ho : Occurs (.other "numpy.float64" "10.0")
      (.list [.dict [("numpy", .other "numpy.float64" "10.0")]]) :=
    Occurs.listMem (by simp) h2
  have hbad : has_invalid_type (.other "numpy.float64" "10.0") = true := by
    simp [has_invalid_type, pyType, allowed_types]
  exact ⟨ho, hbad, C4_invalid_scalar_rejected _ _ ho hbad⟩

example :
    next_event ⟨"ws", .dict [], false, "s1", 1⟩ []
        [⟨"Idle", 2, .dict [], .dict [], .dict [], ""⟩] (.dict []) =
      ⟨.ok ⟨.IDLE, .dict []⟩, ⟨"ws", .dict [], false, "s1", 2⟩, [], [],
        [.advance "ws" "s1" 1 (.dict []) (.bool false)]⟩ := by
  rw [next_event.eq_def]
  simp [validate_state, validate_vals, has_invalid_type, pyType, allowed_types,
    getHalted, dictGet]

/-- C5: a state snapshot that fails validation makes `next_event` raise the
validation error before any transport call is made: the call trace is empty
and the connector state and platform streams are untouched. -/
theorem C5_validation_error_before_transport (conn : ConnState)
    (sessions : List String) (responses : List AdvanceResponse)
    (state : PyVal) (e : ValErr) (h : validate_state state = .error e) :
    next_event conn sessions responses state =
      ⟨.error (.typeErrorValidation e), conn, sessions, responses, []⟩ := by
  rw [next_event.eq_def, h]

/-- Witness for C5 at a concrete invalid snapshot. -/
theorem C5_validation_error_before_transport_witness :
    validate_state (.str "x") = .error ⟨.str "x", .str⟩ ∧
      next_event ⟨"ws", .dict [], false, "s1", 3⟩ ["s9"]
          [⟨"Idle", 2, .dict [], .dict [], .dict [], ""⟩] (.str "x") =
        ⟨.error (.typeErrorValidation ⟨.str "x", .str⟩),
          ⟨"ws", .dict [], false, "s1", 3⟩, ["s9"],
          [⟨"Idle", 2, .dict [], .dict [], .dict [], ""⟩], []⟩ := by
  have h : validate_state (.str "x") = .error ⟨.str "x", .str⟩ := by
    simp [validate_state, has_invalid_type, pyType, allowed_types]
  exact ⟨h, C5_validation_error_before_transport _ _ _ _ _ h⟩

/-- C10: a snapshot whose top level is a list passes `validate_state`, yet
`next_event` raises `AttributeError` while reading `state.get("halted", ...)`
before the advance request is sent: no transport call, state unchanged. -/
theorem C10_list_snapshot_fails_before_advance (conn : ConnState)
    (sessions : List String) (responses : List AdvanceResponse)
    (xs : List PyVal) (h : validate_state (.list xs) = .ok ()) :
    next_event conn sessions responses (.list xs) =
      ⟨.error (.attributeError .list), conn, sessions, responses, []⟩ := by
  rw [next_event.eq_def, h]
  simp [getHalted, pyType]

/-- Witness for C10 at a concrete list snapshot. -/
theorem C10_list_snapshot_fails_before_advance_witness :
    validate_state (.list [.int 1]) = .ok () ∧
      next_event ⟨"ws", .dict [], false, "s1", 3⟩ ["s9"]
          [⟨"Idle", 2, .dict [], .dict [], .dict [], ""⟩] (.list [.int 1]) =
        ⟨.error (.attributeError .list), ⟨"ws", .dict [], false, "s1", 3⟩,
          ["s9"], [⟨"Idle", 2, .dict [], .dict [], .dict [], ""⟩], []⟩ := by
  have h : validate_state (.list [.int 1]) = .ok () := by
    simp [validate_state, validate_items, has_invalid_type, pyType,
      allowed_types, bind, Except.bind]
  exact ⟨h, C10_list_snapshot_fails_before_advance _ _ _ _ h⟩

/-- C9: the advisory schema check never raises — for every descriptor and
every schema-validation outcome it returns normally, with the
caller-supplied descriptor unchanged (violations are only logged). -/
theorem C9_validate_interface_advisory (si : PyVal) (o : SchemaOutcome) :
    ∃ logs, validate_interface si o = .ok (si, logs) := by
  cases o <;> exact ⟨_, rfl⟩

/-- C6: the decoding table of `next_event` — Idle yields an Idle event with
empty dict content, EpisodeStart the response's config, EpisodeStep the
step action, EpisodeFinish the finish reason; a kind outside the known set
raises an error naming the received kind. -/
theorem C6_decoding_table (conn : ConnState) (sessions : List String)
    (resp : AdvanceResponse) (rest : List AdvanceResponse)
    (kvs : List (String × PyVal))
    (hv : validate_state (.dict kvs) = .ok ()) :
    (resp.type = "Idle" →
      (next_event conn sessions (resp :: rest) (.dict kvs)).outcome =
        .ok ⟨.IDLE, .dict []⟩) ∧
    (resp.type = "EpisodeStart" →
      (next_event conn sessions (resp :: rest) (.dict kvs)).outcome =
        .ok ⟨.EPISODE_START, resp.config⟩) ∧
    (resp.type = "EpisodeStep" →
      (next_event conn sessions (resp :: rest) (.dict kvs)).outcome =
        .ok ⟨.EPISODE_STEP, resp.action⟩) ∧
    (resp.type = "EpisodeFinish" →
      (next_event conn sessions (resp :: rest) (.dict kvs)).outcome =
        .ok ⟨.EPISODE_FINISH, resp.reason⟩) ∧
    (resp.type ∉ (["Idle", "EpisodeStart", "EpisodeStep", "EpisodeFinish",
        "Unregister"] : List String) →
      (next_event conn sessions (resp :: rest) (.dict kvs)).outcome =
        .error (.typeErrorUnknownEvent resp.type)) := by
  refine ⟨?_, ?_, ?_, ?_, ?_⟩ <;> intro ht
  · rw [next_event.eq_def, hv]
    simp [getHalted, ht]
  · rw [next_event.eq_def, hv]
    simp [getHalted, ht]
  · rw [next_event.eq_def, hv]
    simp [getHalted, ht]
  · rw [next_event.eq_def, hv]
    simp [getHalted, ht]
  · simp at ht
    obtain ⟨h1, h2, h3, h4, h5⟩ := ht
    rw [next_event.eq_def, hv]
    simp [getHalted, h1, h2, h3, h4, h5]

/-- Witness for C6 at a concrete Idle response. -/
theorem C6_decoding_table_witness :
    validate_state (.dict []) = .ok () ∧
      (next_event ⟨"ws", .dict [], false, "s1", 1⟩ []
          [⟨"Idle", 2, .dict [], .dict [], .dict [], ""⟩] (.dict [])).outcome =
        .ok ⟨.IDLE, .dict []⟩ := by
  have hv : validate_state (.dict []) = .ok () := by
    simp [validate_state, validate_vals, has_invalid_type, pyType, allowed_types]
  exact ⟨hv, (C6_decoding_table _ _ _ _ _ hv).1 rfl⟩

/-- Whenever `next_event` gets past validation and the halted lookup, the
first transport call it makes is the advance request carrying the currently
stored session identifier and sequence number and the caller's snapshot. -/
theorem next_event_first_call (conn : ConnState) (sessions : List String)
    (resp : AdvanceResponse) (rest : List AdvanceResponse)
    (kvs : List (String × PyVal)) (hv : validate_state (.dict kvs) = .ok ()) :
    (next_event conn sessions (resp :: rest) (.dict kvs)).calls.head? =
      some (.advance conn.workspace conn.session_id conn.sequence_id
        (.dict kvs) (dictGet kvs "halted" (.bool false))) := by
  rw [next_event.eq_def, hv]
  simp only [getHalted]
  split_ifs
  all_goals try simp
  all_goals (split <;> try simp)
  all_goals (split <;> simp)

/-- For the four event kinds that decode to a returned event, `next_event`
stores the platform-returned sequence number. -/
theorem next_event_seq_updated (conn : ConnState) (sessions : List String)
    (resp : AdvanceResponse) (rest : List AdvanceResponse)
    (kvs : List (String × PyVal)) (hv : validate_state (.dict kvs) = .ok ())
    (ht : resp.type ∈ (["Idle", "EpisodeStart", "EpisodeStep",
        "EpisodeFinish"] : List String)) :
    (next_event conn sessions (resp :: rest) (.dict kvs)).conn.sequence_id =
      resp.sequence_id := by
  rw [next_event.eq_def, hv]
  simp at ht
  rcases ht with h | h | h | h <;> simp [getHalted, h]

/-- C7: sequence-number bookkeeping — registration stores the fresh session
identifier and resets the sequence number to 1; every advance sends exactly
the stored sequence number in its first transport call; and on a response
of any of the four returnable kinds the stored sequence number becomes the
platform-returned one, so consecutive advance calls use the
platform-dictated sequence. -/
theorem C7_sequence_bookkeeping :
    (∀ (conn : ConnState) (sid : String) (srest : List String),
      register_sim conn (sid :: srest) =
        (.ok (), { conn with session_id := sid, sequence_id := 1 }, srest,
          [.create conn.workspace conn.sim_interface])) ∧
    (∀ (conn : ConnState) (sessions : List String) (resp : AdvanceResponse)
        (rest : List AdvanceResponse) (kvs : List (String × PyVal)),
      validate_state (.dict kvs) = .ok () →
        (next_event conn sessions (resp :: rest) (.dict kvs)).calls.head? =
          some (.advance conn.workspace conn.session_id conn.sequence_id
            (.dict kvs) (dictGet kvs "halted" (.bool false)))) ∧
    (∀ (conn : ConnState) (sessions : List String) (resp : AdvanceResponse)
        (rest : List AdvanceResponse) (kvs : List (String × PyVal)),
      validate_state (.dict kvs) = .ok () →
      resp.type ∈ (["Idle", "EpisodeStart", "EpisodeStep", "EpisodeFinish"] :
          List String) →
        (next_event conn sessions (resp :: rest) (.dict kvs)).conn.sequence_id =
          resp.sequence_id) := by
  refine ⟨fun conn sid srest => rfl, ?_, ?_⟩
  · intro conn sessions resp rest kvs hv
    exact next_event_first_call conn sessions resp rest kvs hv
  · intro conn sessions resp rest kvs hv ht
    exact next_event_seq_updated conn sessions resp rest kvs hv ht

/-- Witness for C7 at concrete data: registration resets to 1, the advance
call carries the stored sequence number, and an EpisodeStep response with
sequence number 5 leaves 5 stored. -/
theorem C7_sequence_bookkeeping_witness :
    validate_state (.dict []) = .ok () ∧
    register_sim ⟨"ws", .dict [], false, "s0", 7⟩ ["s1"] =
      (.ok (), ⟨"ws", .dict [], false, "s1", 1⟩, [],
        [.create "ws" (.dict [])]) ∧
    (next_event ⟨"ws", .dict [], false, "s1", 1⟩ []
        [⟨"EpisodeStep", 5, .dict [], .dict [], .dict [], ""⟩]
        (.dict [])).calls.head? =
      some (.advance "ws" "s1" 1 (.dict []) (dictGet [] "halted" (.bool false))) ∧
    (next_event ⟨"ws", .dict [], false, "s1", 1⟩ []
        [⟨"EpisodeStep", 5, .dict [], .dict [], .dict [], ""⟩]
        (.dict [])).conn.sequence_id = 5 := by
  have hv : validate_state (.dict []) = .ok () := by
    simp [validate_state, validate_vals, has_invalid_type, pyType, allowed_types]
  refine ⟨hv, C7_sequence_bookkeeping.1 ⟨"ws", .dict [], false, "s0", 7⟩ "s1" [],
    C7_sequence_bookkeeping.2.1 _ _ _ _ _ hv,
    C7_sequence_bookkeeping.2.2 _ _ _ _ _ hv (by simp)⟩

/-- C3 (amended): an advance call either fully succeeds or raises; a failure
before the transport call (validation error) leaves the connector state,
the platform streams and the call trace untouched; but a call that raises
because the platform returned an unknown event kind has already stored the
platform-returned sequence number (only the session identifier is
unchanged). -/
theorem C3_failure_effects :
    (∀ (conn : ConnState) (sessions : List String)
        (responses : List AdvanceResponse) (state : PyVal) (e : ValErr),
      validate_state state = .error e →
        next_event conn sessions responses state =
          ⟨.error (.typeErrorValidation e), conn, sessions, responses, []⟩) ∧
    (∀ (conn : ConnState) (sessions : List String) (resp : AdvanceResponse)
        (rest : List AdvanceResponse) (kvs : List (String × PyVal)),
      validate_state (.dict kvs) = .ok () →
      resp.type ∉ (["Idle", "EpisodeStart", "EpisodeStep", "EpisodeFinish",
          "Unregister"] : List String) →
        next_event conn sessions (resp :: rest) (.dict kvs) =
          ⟨.error (.typeErrorUnknownEvent resp.type),
            { conn with sequence_id := resp.sequence_id }, sessions, rest,
            [.advance conn.workspace conn.session_id conn.sequence_id
              (.dict kvs) (dictGet kvs "halted" (.bool false))]⟩) := by
  constructor
  · intro conn sessions responses state e h
    rw [next_event.eq_def, h]
  · intro conn sessions resp rest kvs hv ht
    simp at ht
    obtain ⟨h1, h2, h3, h4, h5⟩ := ht
    rw [next_event.eq_def, hv]
    simp [getHalted, h1, h2, h3, h4, h5]

/-- Witness for C3 at concrete data (validation-failure clause and
unknown-kind clause). -/
theorem C3_failure_effects_witness :
    validate_state (.str "y") = .error ⟨.str "y", .str⟩ ∧
    next_event ⟨"w2", .dict [], false, "t1", 4⟩ [] [] (.str "y") =
      ⟨.error (.typeErrorValidation ⟨.str "y", .str⟩),
        ⟨"w2", .dict [], false, "t1", 4⟩, [], [], []⟩ ∧
    validate_state (.dict []) = .ok () ∧
    next_event ⟨"w2", .dict [], false, "t1", 4⟩ []
        [⟨"Bar", 9, .dict [], .dict [], .dict [], ""⟩] (.dict []) =
      ⟨.error (.typeErrorUnknownEvent "Bar"), ⟨"w2", .dict [], false, "t1", 9⟩,
        [], [], [.advance "w2" "t1" 4 (.dict []) (dictGet [] "halted" (.bool false))]⟩ := by
  have he : validate_state (.str "y") = .error ⟨.str "y", .str⟩ := by
    simp [validate_state, has_invalid_type, pyType, allowed_types]
  have hv : validate_state (.dict []) = .ok () := by
    simp [validate_state, validate_vals, has_invalid_type, pyType, allowed_types]
  exact ⟨he, C3_failure_effects.1 _ _ _ _ _ he, hv,
    C3_failure_effects.2 _ _ _ _ _ hv (by simp)⟩

/-- C3 (counterexample): an advance call that raises on an unknown event
kind does NOT leave the stored sequence number unchanged — with stored
sequence number 5 and a response of kind `"Foo"` carrying sequence number 7,
`next_event` raises and the stored sequence number is 7, not 5. -/
theorem C3_unknown_kind_updates_sequence :
    (next_event ⟨"ws", .dict [], false, "s1", 5⟩ []
        [⟨"Foo", 7, .dict [], .dict [], .dict [], ""⟩] (.dict [])).outcome =
      .error (.typeErrorUnknownEvent "Foo") ∧
    ¬ (next_event ⟨"ws", .dict [], false, "s1", 5⟩ []
        [⟨"Foo", 7, .dict [], .dict [], .dict [], ""⟩]
        (.dict [])).conn.sequence_id = 5 := by
  constructor <;>
    (rw [next_event.eq_def]
     simp [validate_state, validate_vals, has_invalid_type, pyType,
       allowed_types, getHalted, dictGet])

/-- C8: a platform response of kind `Unregister` while the retry policy is
disabled makes `next_event` raise an error carrying the platform-supplied
revocation details; the only transport call of the whole advance call is
the advance request itself. The session identifier stays as it was (the
sequence number has already been assigned from the response). -/
theorem C8_unregister_retry_disabled (conn : ConnState) (sessions : List String)
    (resp : AdvanceResponse) (rest : List AdvanceResponse)
    (kvs : List (String × PyVal)) (hv : validate_state (.dict kvs) = .ok ())
    (hretry : conn.retry = false) (ht : resp.type = "Unregister") :
    next_event conn sessions (resp :: rest) (.dict kvs) =
      ⟨.error (.runtimeUnregistered resp.unregister_details),
        { conn with sequence_id := resp.sequence_id }, sessions, rest,
        [.advance conn.workspace conn.session_id conn.sequence_id (.dict kvs)
          (dictGet kvs "halted" (.bool false))]⟩ := by
  rw [next_event.eq_def, hv]
  simp [getHalted, ht, hretry]

/-- Witness for C8: revocation details "quota exceeded" surface in the
raised error and exactly one transport call is made. -/
theorem C8_unregister_retry_disabled_witness :
    validate_state (.dict []) = .ok () ∧
    next_event ⟨"ws", .dict [], false, "s1", 3⟩ ["s9"]
        [⟨"Unregister", 4, .dict [], .dict [], .dict [], "quota exceeded"⟩]
        (.dict []) =
      ⟨.error (.runtimeUnregistered "quota exceeded"),
        ⟨"ws", .dict [], false, "s1", 4⟩, ["s9"], [],
        [.advance "ws" "s1" 3 (.dict []) (dictGet [] "halted" (.bool false))]⟩ := by
  have hv : validate_state (.dict []) = .ok () := by
    simp [validate_state, validate_vals, has_invalid_type, pyType, allowed_types]
  exact ⟨hv, C8_unregister_retry_disabled _ _ _ _ _ hv rfl rfl⟩

/-- C2 (code behaviour at the claim's scenario): with retry enabled, a
response of kind `Unregister` makes `next_event` re-register (fresh session
identifier "s2", sequence number reset to 1) and re-issue the same advance
call with the same snapshot — but because the recursive
`self.next_event(state)` call's result is not returned, the successfully
retried EpisodeStep event is discarded and the call raises
`TypeError("Unknown event type. Received Unregister")` instead. -/
theorem C2_retry_reregisters_but_raises :
    next_event ⟨"ws", .dict [], true, "s1", 5⟩ ["s2"]
        [⟨"Unregister", 6, .dict [], .dict [], .dict [], "details"⟩,
         ⟨"EpisodeStep", 2, .dict [], .dict [("a", .int 1)], .dict [], ""⟩]
        (.dict []) =
      ⟨.error (.typeErrorUnknownEvent "Unregister"),
        ⟨"ws", .dict [], true, "s2", 2⟩, [], [],
        [.advance "ws" "s1" 5 (.dict []) (.bool false),
         .create "ws" (.dict []),
         .advance "ws" "s2" 1 (.dict []) (.bool false)]⟩ := by
  have hinner :
      next_event ⟨"ws", .dict [], true, "s2", 1⟩ []
          [⟨"EpisodeStep", 2, .dict [], .dict [("a", .int 1)], .dict [], ""⟩]
          (.dict []) =
        ⟨.ok ⟨.EPISODE_STEP, .dict [("a", .int 1)]⟩,
          ⟨"ws", .dict [], true, "s2", 2⟩, [], [],
          [.advance "ws" "s2" 1 (.dict []) (.bool false)]⟩ := by
    rw [next_event.eq_def]
    simp [validate_state, validate_vals, has_invalid_type, pyType,
      allowed_types, getHalted, dictGet]
  rw [next_event.eq_def]
  simp [validate_state, validate_vals, has_invalid_type, pyType, allowed_types,
    getHalted, dictGet, register_sim, hinner]
